import Mathlib

/-!
Verification development for a traffic-aware navigation UI.

The embedding below models the three pieces of client logic of the
repository: the destination resolver (SearchInput), the route fetcher
and traffic classifier (TrafficMap.getRoutes and friends), and the
multi-stop optimizer (OptimizationPanel.optimizeRoute).

Modelling conventions:
- Geographic coordinates are passed through and never computed on, so a
  coordinate is modelled as a pair of integers.
- Durations and distances are passed through unmodified, so they are
  modelled as integers.
- Network calls are modelled by passing each handler the response it
  would receive (as a `FetchResult`, whose `err` constructor stands for
  a rejected fetch or a JSON parse exception caught by the handler) and
  by returning the list of requests the handler issues, in order.
- React state setters become functional record updates on an explicit
  state record per component; each async handler is modelled as one
  atomic step from pre-state to post-state.
-/

namespace TrafficWhisper

/-- A longitude and latitude pair. The claims never compute on coordinate
values, so they are modelled as integers. -/
abbrev Coord := Int × Int

/-- A GeoJSON LineString geometry, reduced to its coordinate list. -/
abbrev Geometry := List Coord

/-- Outcome of one fetch: the parsed response, or a network or parse
failure (a rejected promise or a throwing json() call). -/
inductive FetchResult (α : Type) where
  | ok : α → FetchResult α
  | err : FetchResult α
deriving DecidableEq

/-- The four-level route severity of TrafficMap (RouteData.trafficLevel). -/
inductive TrafficLevel where
  | free
  | light
  | moderate
  | heavy
deriving DecidableEq, Repr

/-- The hasTraffic derivation in getRoutes:
congestionLevels.some(level implies one of moderate, heavy, severe). -/
def hasTraffic (congestionLevels : List String) : Bool :=
  congestionLevels.any fun level => decide (level ∈ ["moderate", "heavy", "severe"])

/-- The trafficLevel derivation in getRoutes: heavy if the list includes
severe, else moderate if it includes heavy, else light if it includes
moderate, else free. -/
def trafficLevel (congestionLevels : List String) : TrafficLevel :=
  if "severe" ∈ congestionLevels then TrafficLevel.heavy
  else if "heavy" ∈ congestionLevels then TrafficLevel.moderate
  else if "moderate" ∈ congestionLevels then TrafficLevel.light
  else TrafficLevel.free

/-- One route of the directions response, before processing. The field
congestion models route.legs[0]?.annotation?.congestion, with none for
any absent link of that optional chain. -/
structure ApiRoute where
  geometry : Geometry
  duration : Int
  distance : Int
  congestion : Option (List String)
deriving DecidableEq

/-- The RouteData record of TrafficMap: one processed route candidate. -/
structure RouteData where
  geometry : Geometry
  duration : Int
  distance : Int
  congestion : List String
  hasTraffic : Bool
  trafficLevel : TrafficLevel
deriving DecidableEq

/-- The body of the processedRoutes map in getRoutes: the absent
congestion list defaults to [], and the two derived fields are computed
from it. -/
def processRoute (route : ApiRoute) : RouteData :=
  let congestionLevels := route.congestion.getD []
  { geometry := route.geometry
    duration := route.duration
    distance := route.distance
    congestion := congestionLevels
    hasTraffic := hasTraffic congestionLevels
    trafficLevel := trafficLevel congestionLevels }

/-- The advisory condition in getRoutes: processedRoutes[0].hasTraffic,
more than one route, and some route (the find over the whole list) with
no traffic or a free rating. -/
def suggestAlternative (processedRoutes : List RouteData) : Bool :=
  match processedRoutes with
  | [] => false
  | r0 :: rest =>
      r0.hasTraffic && decide (1 < (r0 :: rest).length) &&
        (r0 :: rest).any fun route =>
          !route.hasTraffic || decide (route.trafficLevel = TrafficLevel.free)

theorem hasTraffic_eq_true_iff (ls : List String) :
    hasTraffic ls = true ↔ ∃ l ∈ ls, l = "moderate" ∨ l = "heavy" ∨ l = "severe" := by
  simp [hasTraffic, List.any_eq_true]

theorem hasTraffic_iff_mem (ls : List String) :
    hasTraffic ls = true ↔ "moderate" ∈ ls ∨ "heavy" ∈ ls ∨ "severe" ∈ ls := by
  rw [hasTraffic_eq_true_iff]
  constructor
  · rintro ⟨l, hl, rfl | rfl | rfl⟩
    · exact Or.inl hl
    · exact Or.inr (Or.inl hl)
    · exact Or.inr (Or.inr hl)
  · rintro (h | h | h)
    · exact ⟨_, h, Or.inl rfl⟩
    · exact ⟨_, h, Or.inr (Or.inl rfl)⟩
    · exact ⟨_, h, Or.inr (Or.inr rfl)⟩

theorem trafficLevel_eq_free_iff (ls : List String) :
    trafficLevel ls = TrafficLevel.free ↔
      "severe" ∉ ls ∧ "heavy" ∉ ls ∧ "moderate" ∉ ls := by
  unfold trafficLevel
  split_ifs with h1 h2 h3 <;> simp_all

theorem hasTraffic_iff_trafficLevel_ne_free (ls : List String) :
    hasTraffic ls = true ↔ trafficLevel ls ≠ TrafficLevel.free := by
  rw [hasTraffic_iff_mem, Ne, trafficLevel_eq_free_iff]
  tauto

/-- C1: the derived route traffic severity is heavy if any tag is severe;
else moderate if any tag is heavy; else light if any tag is moderate;
else free — a strict worst-case priority, so a single severe tag yields
heavy regardless of all other tags. -/
theorem C1_severity_priority (tags : List String) :
    (trafficLevel tags = TrafficLevel.heavy ↔ "severe" ∈ tags) ∧
    (trafficLevel tags = TrafficLevel.moderate ↔
      "severe" ∉ tags ∧ "heavy" ∈ tags) ∧
    (trafficLevel tags = TrafficLevel.light ↔
      "severe" ∉ tags ∧ "heavy" ∉ tags ∧ "moderate" ∈ tags) ∧
    (trafficLevel tags = TrafficLevel.free ↔
      "severe" ∉ tags ∧ "heavy" ∉ tags ∧ "moderate" ∉ tags) := by
  unfold trafficLevel
  split_ifs with h1 h2 h3 <;> simp_all

/-- C2: for every route, hasTraffic holds iff some tag of the first leg
is moderate, heavy or severe; an absent tag list is treated as empty,
and an empty tag list gives hasTraffic false and severity free. -/
theorem C2_hasTraffic_characterization (route : ApiRoute) :
    ((processRoute route).hasTraffic = true ↔
      ∃ l ∈ route.congestion.getD [], l = "moderate" ∨ l = "heavy" ∨ l = "severe") ∧
    ((processRoute route).congestion = route.congestion.getD []) ∧
    (route.congestion.getD [] = [] →
      (processRoute route).hasTraffic = false ∧
      (processRoute route).trafficLevel = TrafficLevel.free) := by
  refine ⟨?_, rfl, ?_⟩
  · simpa [processRoute] using hasTraffic_eq_true_iff (route.congestion.getD [])
  · intro h
    simp [processRoute, h, hasTraffic, trafficLevel]

/-- A concrete api route whose congestion list is absent. -/
def routeNoCongestion : ApiRoute :=
  { geometry := [], duration := 0, distance := 0, congestion := none }

/-- Witness for C2 at a route whose congestion list is absent. -/
theorem C2_witness :
    (processRoute routeNoCongestion).hasTraffic = false ∧
    (processRoute routeNoCongestion).trafficLevel = TrafficLevel.free :=
  (C2_hasTraffic_characterization routeNoCongestion).2.2 rfl

/-- One feature of a geocoding response (only the fields the handlers
read: place_name and center). -/
structure GeocodeFeature where
  place_name : String
  center : Coord
deriving DecidableEq

/-- A geocoding response body, reduced to its features array. The
getRoutes geocode branch reads geocodeData.features directly. -/
structure GeocodeResponse where
  features : List GeocodeFeature
deriving DecidableEq

/-- A directions response body; routeData.routes may be absent. -/
structure DirectionsResponse where
  routes : Option (List ApiRoute)
deriving DecidableEq

/-- A network request issued by getRoutes, in issue order. -/
inductive NetCall where
  | geocode (query : String)
  | directions (dest : Coord)
deriving DecidableEq

/-- Whether a request is a geocode request. -/
def NetCall.isGeocodeCall : NetCall → Bool
  | NetCall.geocode _ => true
  | NetCall.directions _ => false

/-- The toasts the TrafficMap and OptimizationPanel handlers can emit. -/
inductive Notice where
  | locationAccessDenied
  | destinationNotFound
  | routeError
  | trafficDetected
  | locationNotFound
  | errorAddingWaypoint
  | needMoreWaypoints
  | routeOptimized
  | optimizationFailed
deriving DecidableEq

/-- The useState record of the TrafficMap component (map handles and the
panel-toggle flag excluded; they carry no claim-relevant data). -/
structure TrafficMapState where
  userLocation : Option Coord
  routes : List RouteData
  selectedRouteIndex : Nat
  destination : String
  isLoading : Bool
deriving DecidableEq

/-- Result of one atomic run of an async TrafficMap handler: the final
component state, the network requests issued in order, and the toasts
emitted in order. -/
structure StepResult where
  state : TrafficMapState
  calls : List NetCall
  notices : List Notice
deriving DecidableEq

/-- The part of getRoutes from the directions fetch onward: request the
alternatives, process them, replace the route list, and possibly emit
the alternative-available toast. Mirrors the source: setRoutes is called
with the processed list but selectedRouteIndex is never written. -/
def getRoutesDirections (s1 : TrafficMapState) (destCoords : Coord)
    (callsSoFar : List NetCall)
    (directionsResp : FetchResult DirectionsResponse) : StepResult :=
  let calls := callsSoFar ++ [NetCall.directions destCoords]
  match directionsResp with
  | FetchResult.err =>
      { state := { s1 with isLoading := false }, calls := calls,
        notices := [Notice.routeError] }
  | FetchResult.ok routeData =>
      match routeData.routes with
      | none =>
          { state := { s1 with isLoading := false }, calls := calls, notices := [] }
      | some [] =>
          { state := { s1 with isLoading := false }, calls := calls, notices := [] }
      | some (r :: rs) =>
          let processedRoutes := (r :: rs).map processRoute
          { state := { s1 with routes := processedRoutes, isLoading := false }
            calls := calls
            notices :=
              if suggestAlternative processedRoutes then [Notice.trafficDetected]
              else [] }

/-- The getRoutes handler. Guard: no user location or empty destination
returns at once. Otherwise it stores the destination text and the
loading flag, geocodes when no coordinates were passed (taking the first
feature, or failing with the not-found toast), then fetches directions.
A FetchResult.err anywhere lands in the catch branch with the single
route-error toast. -/
def getRoutes (s : TrafficMapState) (destination : String)
    (coordinates : Option Coord)
    (geocodeResp : FetchResult GeocodeResponse)
    (directionsResp : FetchResult DirectionsResponse) : StepResult :=
  if s.userLocation = none ∨ destination = "" then
    { state := s, calls := [], notices := [] }
  else
    let s1 := { s with isLoading := true, destination := destination }
    match coordinates with
    | some destCoords => getRoutesDirections s1 destCoords [] directionsResp
    | none =>
        match geocodeResp with
        | FetchResult.err =>
            { state := { s1 with isLoading := false }
              calls := [NetCall.geocode destination]
              notices := [Notice.routeError] }
        | FetchResult.ok geocodeData =>
            match geocodeData.features with
            | [] =>
                { state := { s1 with isLoading := false }
                  calls := [NetCall.geocode destination]
                  notices := [Notice.destinationNotFound] }
            | feature :: _ =>
                getRoutesDirections s1 feature.center
                  [NetCall.geocode destination] directionsResp

/-- The selectRoute click handler: stores the clicked index (the
displayRoutes call it makes is pure rendering). -/
def selectRoute (s : TrafficMapState) (index : Nat) : TrafficMapState :=
  { s with selectedRouteIndex := index }

theorem processRoute_hasTraffic_iff_ne_free (route : ApiRoute) :
    (processRoute route).hasTraffic = true ↔
      (processRoute route).trafficLevel ≠ TrafficLevel.free := by
  simpa [processRoute] using
    hasTraffic_iff_trafficLevel_ne_free (route.congestion.getD [])

theorem suggestAlternative_iff (rs : List RouteData)
    (hinv : ∀ r ∈ rs, r.hasTraffic = true ↔ r.trafficLevel ≠ TrafficLevel.free) :
    suggestAlternative rs = true ↔
      (∃ r0 rest, rs = r0 :: rest ∧ r0.hasTraffic = true) ∧
      ∃ r ∈ rs, r.trafficLevel = TrafficLevel.free := by
  match rs with
  | [] => simp [suggestAlternative]
  | r0 :: rest =>
      simp only [suggestAlternative, Bool.and_eq_true, List.any_eq_true,
        Bool.or_eq_true, Bool.not_eq_true', decide_eq_true_eq]
      constructor
      · rintro ⟨⟨h0, _⟩, r, hr, hfree⟩
        refine ⟨⟨r0, rest, rfl, h0⟩, r, hr, ?_⟩
        rcases hfree with hfalse | hfree
        · by_contra hne
          have := (hinv r hr).2 hne
          simp [this] at hfalse
        · exact hfree
      · rintro ⟨⟨r0', rest', heq, h0'⟩, r, hr, hfree⟩
        have h0 : r0.hasTraffic = true := by
          injection heq with h1 _
          rw [h1]; exact h0'
        have hr0ne : r0.trafficLevel ≠ TrafficLevel.free :=
          (hinv r0 (by simp)).mp h0
        have hrne : r ≠ r0 := fun h => hr0ne (h ▸ hfree)
        have hrrest : r ∈ rest := by
          rcases List.mem_cons.mp hr with h | h
          · exact absurd h hrne
          · exact h
        refine ⟨⟨h0, ?_⟩, r, hr, Or.inr hfree⟩
        cases rest with
        | nil => cases hrrest
        | cons a as => simp


theorem getRoutes_keeps_selectedRouteIndex (s : TrafficMapState)
    (destination : String) (coordinates : Option Coord)
    (geocodeResp : FetchResult GeocodeResponse)
    (directionsResp : FetchResult DirectionsResponse) :
    (getRoutes s destination coordinates geocodeResp directionsResp).state.selectedRouteIndex
      = s.selectedRouteIndex := by
  unfold getRoutes getRoutesDirections
  rcases coordinates with _ | c <;>
    rcases geocodeResp with g | _ <;>
    rcases directionsResp with d | _ <;>
    split <;>
    first
    | rfl
    | (rcases g with ⟨_ | ⟨f, fs⟩⟩ <;>
        first
        | rfl
        | (rcases d with ⟨_ | ⟨_ | ⟨r, rs⟩⟩⟩ <;> simp))
    | (rcases d with ⟨_ | ⟨_ | ⟨r, rs⟩⟩⟩ <;> simp)

/-- C3: over a processed route list, the alternative-available advisory
fires iff the route at index 0 has traffic and some route in the list is
rated free, and a getRoutes run never changes the selected route index. -/
theorem C3_alternative_advisory (apiRoutes : List ApiRoute)
    (s : TrafficMapState) (destination : String) (coordinates : Option Coord)
    (geocodeResp : FetchResult GeocodeResponse)
    (directionsResp : FetchResult DirectionsResponse) :
    (suggestAlternative (apiRoutes.map processRoute) = true ↔
      (∃ r0 rest, apiRoutes.map processRoute = r0 :: rest ∧ r0.hasTraffic = true) ∧
      ∃ r ∈ apiRoutes.map processRoute, r.trafficLevel = TrafficLevel.free) ∧
    (getRoutes s destination coordinates geocodeResp directionsResp).state.selectedRouteIndex
      = s.selectedRouteIndex := by
  constructor
  · refine suggestAlternative_iff _ ?_
    intro r hr
    obtain ⟨a, _, rfl⟩ := List.mem_map.mp hr
    exact processRoute_hasTraffic_iff_ne_free a
  · exact getRoutes_keeps_selectedRouteIndex s destination coordinates
      geocodeResp directionsResp

/-- A concrete api route with one moderately congested segment. -/
def routeModerate : ApiRoute :=
  { geometry := [(0, 0), (1, 1)], duration := 600, distance := 1000,
    congestion := some ["low", "moderate"] }

/-- A concrete api route with no congested segment. -/
def routeClear : ApiRoute :=
  { geometry := [(0, 0), (2, 2)], duration := 700, distance := 1200,
    congestion := some ["low", "low"] }

/-- A concrete TrafficMap state holding two displayed route candidates. -/
def twoRouteState : TrafficMapState :=
  { userLocation := some (0, 0)
    routes := [processRoute routeModerate, processRoute routeClear]
    selectedRouteIndex := 0
    destination := "Old Town"
    isLoading := false }

/-- A directions response holding a single route. -/
def oneRouteResponse : DirectionsResponse :=
  { routes := some [routeClear] }

/-- C4: the code contradicts the reset-to-zero invariant. Starting from
two displayed routes with index 1 selected, a successful fetch that
returns a single route leaves selectedRouteIndex at 1, which is out of
range for the new one-element candidate list: getRoutes stores the new
list without writing selectedRouteIndex. -/
theorem C4_stale_selected_index :
    (getRoutes (selectRoute twoRouteState 1) "Main Street" (some (5, 5))
      (FetchResult.ok { features := [] }) (FetchResult.ok oneRouteResponse)).state.routes.length = 1 ∧
    (getRoutes (selectRoute twoRouteState 1) "Main Street" (some (5, 5))
      (FetchResult.ok { features := [] }) (FetchResult.ok oneRouteResponse)).state.selectedRouteIndex = 1 ∧
    ¬ ((getRoutes (selectRoute twoRouteState 1) "Main Street" (some (5, 5))
      (FetchResult.ok { features := [] }) (FetchResult.ok oneRouteResponse)).state.selectedRouteIndex
        < (getRoutes (selectRoute twoRouteState 1) "Main Street" (some (5, 5))
      (FetchResult.ok { features := [] }) (FetchResult.ok oneRouteResponse)).state.routes.length) := by
  refine ⟨?_, ?_, ?_⟩ <;> decide

/-- A concrete TrafficMap state before a failing fetch. -/
def preFailureState : TrafficMapState :=
  { userLocation := some (0, 0)
    routes := [processRoute routeModerate]
    selectedRouteIndex := 0
    destination := "Old Town"
    isLoading := false }

/-- Counterexample to C7 as stated: on a directions network failure the
route-error toast is emitted, yet the destination field of the component
state has changed (it is written before the fetch), so not all component
state is left unchanged. -/
theorem C7_counterexample :
    (getRoutes preFailureState "River Road" (some (9, 9))
      (FetchResult.ok { features := [] }) FetchResult.err).notices = [Notice.routeError] ∧
    ¬ ((getRoutes preFailureState "River Road" (some (9, 9))
      (FetchResult.ok { features := [] }) FetchResult.err).state.destination
        = preFailureState.destination) := by
  refine ⟨?_, ?_⟩ <;> decide

/-- C7 amended: on a network or parse failure of the geocode or the
directions fetch — the geocode failing on the raw-text path, the
directions fetch failing with coordinates supplied, or the directions
fetch failing after a successful geocode on the raw-text path — exactly
the single route-error toast is emitted, each endpoint was called at
most once (no retry), and the route candidate list and selected index
are unchanged; the stored destination text, however, was already
overwritten with the submitted query before the fetch, and the loading
flag ends false. -/
theorem C7_failure_keeps_routes (s : TrafficMapState) (destination : String)
    (c : Coord) (geocodeResp : FetchResult GeocodeResponse)
    (directionsResp : FetchResult DirectionsResponse)
    (hloc : s.userLocation ≠ none) (hdest : destination ≠ "") :
    ((getRoutes s destination none FetchResult.err directionsResp).notices
        = [Notice.routeError] ∧
      (getRoutes s destination none FetchResult.err directionsResp).calls
        = [NetCall.geocode destination] ∧
      (getRoutes s destination none FetchResult.err directionsResp).state.routes
        = s.routes ∧
      (getRoutes s destination none FetchResult.err directionsResp).state.selectedRouteIndex
        = s.selectedRouteIndex ∧
      (getRoutes s destination none FetchResult.err directionsResp).state.destination
        = destination ∧
      (getRoutes s destination none FetchResult.err directionsResp).state.isLoading
        = false) ∧
    ((getRoutes s destination (some c) geocodeResp FetchResult.err).notices
        = [Notice.routeError] ∧
      (getRoutes s destination (some c) geocodeResp FetchResult.err).calls
        = [NetCall.directions c] ∧
      (getRoutes s destination (some c) geocodeResp FetchResult.err).state.routes
        = s.routes ∧
      (getRoutes s destination (some c) geocodeResp FetchResult.err).state.selectedRouteIndex
        = s.selectedRouteIndex ∧
      (getRoutes s destination (some c) geocodeResp FetchResult.err).state.destination
        = destination ∧
      (getRoutes s destination (some c) geocodeResp FetchResult.err).state.isLoading
        = false) ∧
    (∀ (geocodeData : GeocodeResponse) (feature : GeocodeFeature)
        (fs : List GeocodeFeature), geocodeData.features = feature :: fs →
      (getRoutes s destination none (FetchResult.ok geocodeData)
          FetchResult.err).notices = [Notice.routeError] ∧
      (getRoutes s destination none (FetchResult.ok geocodeData)
          FetchResult.err).calls
        = [NetCall.geocode destination, NetCall.directions feature.center] ∧
      (getRoutes s destination none (FetchResult.ok geocodeData)
          FetchResult.err).state.routes = s.routes ∧
      (getRoutes s destination none (FetchResult.ok geocodeData)
          FetchResult.err).state.selectedRouteIndex = s.selectedRouteIndex ∧
      (getRoutes s destination none (FetchResult.ok geocodeData)
          FetchResult.err).state.destination = destination ∧
      (getRoutes s destination none (FetchResult.ok geocodeData)
          FetchResult.err).state.isLoading = false) := by
  have hguard : ¬ (s.userLocation = none ∨ destination = "") := by
    rintro (h | h)
    · exact hloc h
    · exact hdest h
  refine ⟨?_, ?_, ?_⟩
  · simp [getRoutes, hguard]
  · simp [getRoutes, hguard, getRoutesDirections]
  · intro geocodeData feature fs hfeat
    simp [getRoutes, hguard, hfeat, getRoutesDirections]

/-- A concrete geocode feature for River Road. -/
def riverRoadFeature : GeocodeFeature :=
  { place_name := "River Road", center := (9, 9) }

/-- A concrete geocode response resolving River Road. -/
def riverRoadResponse : GeocodeResponse :=
  { features := [riverRoadFeature] }

/-- Witness for C7 amended at concrete failing fetches: a directions
failure with coordinates supplied, and a directions failure after a
successful geocode on the raw-text path. -/
theorem C7_witness :
    ((getRoutes preFailureState "River Road" (some (9, 9))
      (FetchResult.ok { features := [] }) FetchResult.err).state.routes
        = preFailureState.routes ∧
    (getRoutes preFailureState "River Road" (some (9, 9))
      (FetchResult.ok { features := [] }) FetchResult.err).state.selectedRouteIndex
        = preFailureState.selectedRouteIndex) ∧
    ((getRoutes preFailureState "River Road" none
      (FetchResult.ok riverRoadResponse) FetchResult.err).notices
        = [Notice.routeError] ∧
    (getRoutes preFailureState "River Road" none
      (FetchResult.ok riverRoadResponse) FetchResult.err).state.routes
        = preFailureState.routes) :=
  have h := C7_failure_keeps_routes preFailureState "River Road" (9, 9)
    (FetchResult.ok { features := [] }) FetchResult.err
    (by decide) (by decide)
  have h3 := h.2.2 riverRoadResponse riverRoadFeature [] rfl
  ⟨⟨h.2.1.2.2.1, h.2.1.2.2.2.1⟩, ⟨h3.1, h3.2.2.1⟩⟩

/-- One autocomplete suggestion of the SearchInput component. -/
structure Suggestion where
  id : String
  place_name : String
  center : Coord
  place_type : List String
deriving DecidableEq

/-- The useState record of the SearchInput component. selectedIndex
ranges over -1 (no highlight) to suggestions.length - 1, so it is an
integer. -/
structure SearchInputState where
  query : String
  suggestions : List Suggestion
  showSuggestions : Bool
  selectedIndex : Int
deriving DecidableEq

/-- The keys the keydown handler distinguishes. -/
inductive Key where
  | arrowDown
  | arrowUp
  | enter
  | escape
  | other
deriving DecidableEq

/-- Result of one SearchInput handler run: the new component state and
the onDestinationSelect invocation it made, if any, as the pair of the
destination text and the optional coordinates passed along. -/
structure KeyResult where
  state : SearchInputState
  selected : Option (String × Option Coord)
deriving DecidableEq

/-- Leading and trailing whitespace removal on a character list. -/
def trimChars (cs : List Char) : List Char :=
  (((cs.dropWhile Char.isWhitespace).reverse).dropWhile Char.isWhitespace).reverse

/-- The JS string trim operation, embedded structurally so that it
evaluates on concrete strings. -/
def strTrim (s : String) : String :=
  String.mk (trimChars s.data)

/-- The handleSearch handler: a nonempty trimmed query hides the
dropdown and submits the trimmed text with no coordinates. -/
def handleSearch (s : SearchInputState) : KeyResult :=
  if strTrim s.query = "" then { state := s, selected := none }
  else
    { state := { s with showSuggestions := false }
      selected := some (strTrim s.query, none) }

/-- The selectSuggestion handler: finalizes the query text to the
full place name of the suggestion, clears and hides the list, resets the
cursor, and submits the name together with its coordinates. -/
def selectSuggestion (s : SearchInputState) (sug : Suggestion) : KeyResult :=
  { state :=
      { s with
          query := sug.place_name
          showSuggestions := false
          suggestions := []
          selectedIndex := -1 }
    selected := some (sug.place_name, some sug.center) }

/-- The handleKeyDown handler. With a hidden or empty list only Enter
acts (falling through to handleSearch). Otherwise ArrowDown moves the
cursor down clamped below suggestions.length - 1, ArrowUp moves it up
with every position at or below 0 sent to -1, Enter picks the
highlighted suggestion (or falls through to handleSearch when none is
highlighted), and Escape hides the list and resets the cursor. The
impossible Enter case of a cursor at or past the list length (the
component never produces it) is modelled as a no-op; the source would
fault there dereferencing an undefined element. -/
def handleKeyDown (s : SearchInputState) (key : Key) : KeyResult :=
  if s.showSuggestions = false ∨ s.suggestions.length = 0 then
    match key with
    | Key.enter => handleSearch s
    | Key.arrowDown => { state := s, selected := none }
    | Key.arrowUp => { state := s, selected := none }
    | Key.escape => { state := s, selected := none }
    | Key.other => { state := s, selected := none }
  else
    match key with
    | Key.arrowDown =>
        { state :=
            { s with selectedIndex :=
                if s.selectedIndex < (s.suggestions.length : Int) - 1 then
                  s.selectedIndex + 1
                else s.selectedIndex }
          selected := none }
    | Key.arrowUp =>
        { state :=
            { s with selectedIndex :=
                if 0 < s.selectedIndex then s.selectedIndex - 1 else -1 }
          selected := none }
    | Key.enter =>
        if 0 ≤ s.selectedIndex then
          match s.suggestions.get? s.selectedIndex.toNat with
          | some sug => selectSuggestion s sug
          | none => { state := s, selected := none }
        else handleSearch s
    | Key.escape =>
        { state := { s with showSuggestions := false, selectedIndex := -1 }
          selected := none }
    | Key.other => { state := s, selected := none }

/-- An autocomplete response body; data.features may be absent. -/
structure SuggestResponse where
  features : Option (List Suggestion)
deriving DecidableEq

/-- The request the searchSuggestions handler issues: the query text and
the result cap it passes to the service in the request URL. -/
structure SuggestCall where
  query : String
  limit : Nat
deriving DecidableEq

/-- Result of one searchSuggestions run. -/
structure SuggestResult where
  state : SearchInputState
  calls : List SuggestCall
deriving DecidableEq

/-- The searchSuggestions handler: guard on an empty token or blank
query, then fetch with limit=5; when the response carries a features
array it is stored verbatim, the dropdown is shown and the cursor
reset. A fetch or parse failure only logs. -/
def searchSuggestions (mapboxToken : String) (s : SearchInputState)
    (searchQuery : String) (resp : FetchResult SuggestResponse) : SuggestResult :=
  if mapboxToken = "" ∨ strTrim searchQuery = "" then { state := s, calls := [] }
  else
    match resp with
    | FetchResult.err =>
        { state := s, calls := [{ query := searchQuery, limit := 5 }] }
    | FetchResult.ok data =>
        match data.features with
        | none => { state := s, calls := [{ query := searchQuery, limit := 5 }] }
        | some features =>
            { state :=
                { s with
                    suggestions := features
                    showSuggestions := true
                    selectedIndex := -1 }
              calls := [{ query := searchQuery, limit := 5 }] }

/-- Result of the debounce timer firing: the new component state and
whether the searchSuggestions lookup was invoked. -/
structure DebounceResult where
  state : SearchInputState
  lookupIssued : Bool
deriving DecidableEq

/-- The debounce effect body after the 300 ms window: queries longer
than two characters trigger the lookup; all others clear the suggestion
list and hide the dropdown. -/
def debounceTimeout (s : SearchInputState) : DebounceResult :=
  if 2 < s.query.length then { state := s, lookupIssued := true }
  else
    { state := { s with suggestions := [], showSuggestions := false }
      lookupIssued := false }

/-- C5: selecting a suggestion finalizes the query text to its full
place name and submits its coordinates, and a getRoutes run that was
handed coordinates makes zero geocode calls; submitting raw text hands
over the trimmed text without coordinates, and a getRoutes run without
coordinates makes exactly one geocode call, before any directions
call. -/
theorem C5_suggestion_bypasses_geocode (si : SearchInputState)
    (sug : Suggestion) (s : TrafficMapState) (destination : String) (c : Coord)
    (geocodeResp : FetchResult GeocodeResponse)
    (directionsResp : FetchResult DirectionsResponse)
    (hloc : s.userLocation ≠ none) (hdest : destination ≠ "")
    (htrim : strTrim si.query ≠ "") :
    ((selectSuggestion si sug).state.query = sug.place_name ∧
      (selectSuggestion si sug).selected = some (sug.place_name, some sug.center)) ∧
    ((handleSearch si).selected = some (strTrim si.query, none)) ∧
    ((getRoutes s destination (some c) geocodeResp directionsResp).calls.countP
        NetCall.isGeocodeCall = 0) ∧
    (∃ rest,
      (getRoutes s destination none geocodeResp directionsResp).calls
          = NetCall.geocode destination :: rest ∧
      rest.countP NetCall.isGeocodeCall = 0) := by
  have hguard : ¬ (s.userLocation = none ∨ destination = "") := by
    rintro (h | h)
    · exact hloc h
    · exact hdest h
  refine ⟨⟨by simp [selectSuggestion], by simp [selectSuggestion]⟩, ?_, ?_, ?_⟩
  · simp [handleSearch, htrim]
  · rcases directionsResp with d | _
    · rcases d with ⟨_ | ⟨_ | ⟨r, rs⟩⟩⟩ <;>
        simp [getRoutes, hguard, getRoutesDirections, NetCall.isGeocodeCall]
    · simp [getRoutes, hguard, getRoutesDirections, NetCall.isGeocodeCall]
  · rcases geocodeResp with g | _
    · rcases g with ⟨_ | ⟨f, fs⟩⟩
      · exact ⟨[], by simp [getRoutes, hguard], rfl⟩
      · refine ⟨[NetCall.directions f.center], ?_, rfl⟩
        rcases directionsResp with d | _
        · rcases d with ⟨_ | ⟨_ | ⟨r, rs⟩⟩⟩ <;>
            simp [getRoutes, hguard, getRoutesDirections]
        · simp [getRoutes, hguard, getRoutesDirections]
    · exact ⟨[], by simp [getRoutes, hguard], rfl⟩

/-- A concrete suggestion for the Springfield library. -/
def librarySpringfield : Suggestion :=
  { id := "poi.1", place_name := "Library, Springfield", center := (10, 20),
    place_type := ["poi"] }

/-- A concrete suggestion for Library Avenue, Shelbyville. -/
def libraryShelbyville : Suggestion :=
  { id := "address.2", place_name := "Library Ave, Shelbyville", center := (30, 40),
    place_type := ["address"] }

/-- A concrete SearchInput state showing two suggestions with the first
one highlighted. -/
def searchStateAtZero : SearchInputState :=
  { query := "Lib", suggestions := [librarySpringfield, libraryShelbyville],
    showSuggestions := true, selectedIndex := 0 }

/-- Witness for C5 at concrete component states and responses. -/
theorem C5_witness :
    ((selectSuggestion searchStateAtZero librarySpringfield).state.query
        = librarySpringfield.place_name) ∧
    ((getRoutes preFailureState "Library, Springfield" (some (10, 20))
        (FetchResult.ok { features := [] })
        (FetchResult.ok oneRouteResponse)).calls.countP NetCall.isGeocodeCall = 0) ∧
    (∃ rest,
      (getRoutes preFailureState "Library, Springfield" none
          (FetchResult.ok { features := [] })
          (FetchResult.ok oneRouteResponse)).calls
        = NetCall.geocode "Library, Springfield" :: rest ∧
      rest.countP NetCall.isGeocodeCall = 0) :=
  have h := C5_suggestion_bypasses_geocode searchStateAtZero librarySpringfield
    preFailureState "Library, Springfield" (10, 20)
    (FetchResult.ok { features := [] }) (FetchResult.ok oneRouteResponse)
    (by decide) (by decide) (by decide)
  ⟨h.1.1, h.2.2.1, h.2.2.2⟩

/-- Counterexample to C8 as stated: with two suggestions shown and the
cursor at the first list index 0, ArrowUp moves the cursor to -1 (no
highlight) instead of leaving it at the first index, so the cursor is
not clamped at the top of the list. -/
theorem C8_counterexample :
    (handleKeyDown searchStateAtZero Key.arrowUp).state.selectedIndex = -1 ∧
    ¬ ((handleKeyDown searchStateAtZero Key.arrowUp).state.selectedIndex
        = searchStateAtZero.selectedIndex) := by
  refine ⟨?_, ?_⟩ <;> decide

/-- C8 amended: over a shown, non-empty suggestion list the cursor
ranges over -1 (no highlight) through length - 1; ArrowDown increments
and clamps at the last index, ArrowUp decrements with both -1 and 0 sent
to -1 (clamping at -1, not at index 0), neither wraps, and Escape hides
the list and resets the cursor while leaving the typed query text
unchanged. -/
theorem C8_cursor_behavior (s : SearchInputState)
    (hshow : s.showSuggestions = true) (hne : s.suggestions.length ≠ 0) :
    (s.selectedIndex = (s.suggestions.length : Int) - 1 →
      (handleKeyDown s Key.arrowDown).state.selectedIndex
        = (s.suggestions.length : Int) - 1) ∧
    (s.selectedIndex < (s.suggestions.length : Int) - 1 →
      (handleKeyDown s Key.arrowDown).state.selectedIndex = s.selectedIndex + 1) ∧
    (s.selectedIndex = 0 →
      (handleKeyDown s Key.arrowUp).state.selectedIndex = -1) ∧
    (s.selectedIndex = -1 →
      (handleKeyDown s Key.arrowUp).state.selectedIndex = -1) ∧
    (0 < s.selectedIndex →
      (handleKeyDown s Key.arrowUp).state.selectedIndex = s.selectedIndex - 1) ∧
    (-1 ≤ s.selectedIndex ∧ s.selectedIndex ≤ (s.suggestions.length : Int) - 1 →
      (-1 ≤ (handleKeyDown s Key.arrowDown).state.selectedIndex ∧
        (handleKeyDown s Key.arrowDown).state.selectedIndex
          ≤ (s.suggestions.length : Int) - 1) ∧
      (-1 ≤ (handleKeyDown s Key.arrowUp).state.selectedIndex ∧
        (handleKeyDown s Key.arrowUp).state.selectedIndex
          ≤ (s.suggestions.length : Int) - 1)) ∧
    ((handleKeyDown s Key.escape).state.showSuggestions = false ∧
      (handleKeyDown s Key.escape).state.query = s.query ∧
      (handleKeyDown s Key.escape).state.selectedIndex = -1) := by
  have hne' : s.suggestions ≠ [] := fun hcon => hne (by simp [hcon])
  refine ⟨?_, ?_, ?_, ?_, ?_, ?_, ?_, ?_, ?_⟩
  · intro h
    simp [handleKeyDown, hshow, hne', h]
  · intro h
    simp [handleKeyDown, hshow, hne', h]
  · intro h
    simp [handleKeyDown, hshow, hne', h]
  · intro h
    simp [handleKeyDown, hshow, hne', h]
  · intro h
    simp [handleKeyDown, hshow, hne', h]
  · rintro ⟨h1, h2⟩
    refine ⟨⟨?_, ?_⟩, ?_, ?_⟩ <;>
      (simp [handleKeyDown, hshow, hne']; omega)
  · simp [handleKeyDown, hshow, hne']
  · simp [handleKeyDown, hshow, hne']
  · simp [handleKeyDown, hshow, hne']

/-- Witness for C8 amended at the concrete two-suggestion state. -/
theorem C8_witness :
    (handleKeyDown searchStateAtZero Key.arrowUp).state.selectedIndex = -1 ∧
    (handleKeyDown searchStateAtZero Key.escape).state.query
      = searchStateAtZero.query :=
  have h := C8_cursor_behavior searchStateAtZero (by decide) (by decide)
  ⟨h.2.2.1 (by decide), h.2.2.2.2.2.2.2.1⟩

/-- A concrete SearchInput state with no suggestions yet. -/
def freshSearchState : SearchInputState :=
  { query := "Springfield", suggestions := [], showSuggestions := false,
    selectedIndex := -1 }

/-- Six distinct concrete suggestions, more than the requested cap. -/
def sixSuggestions : List Suggestion :=
  [{ id := "1", place_name := "A", center := (1, 1), place_type := ["place"] },
   { id := "2", place_name := "B", center := (2, 2), place_type := ["place"] },
   { id := "3", place_name := "C", center := (3, 3), place_type := ["place"] },
   { id := "4", place_name := "D", center := (4, 4), place_type := ["place"] },
   { id := "5", place_name := "E", center := (5, 5), place_type := ["place"] },
   { id := "6", place_name := "F", center := (6, 6), place_type := ["place"] }]

/-- Counterexample to C9 as stated: a completed lookup whose response
carries six features stores all six suggestions; the handler never
truncates the feature array it receives. -/
theorem C9_counterexample :
    ¬ ((searchSuggestions "tok" freshSearchState "Springfield"
        (FetchResult.ok { features := some sixSuggestions })).state.suggestions.length
          ≤ 5) := by
  decide

/-- C9 amended: a completed lookup stores the feature array of the
response verbatim, with no client-side truncation; the five-entry cap is
only requested from the service through the limit parameter of the
single issued request, so a response with more than five entries is
stored in full. -/
theorem C9_stores_features_verbatim (mapboxToken : String)
    (s : SearchInputState) (searchQuery : String) (features : List Suggestion)
    (htok : mapboxToken ≠ "") (hq : strTrim searchQuery ≠ "") :
    (searchSuggestions mapboxToken s searchQuery
        (FetchResult.ok { features := some features })).state.suggestions
      = features ∧
    (searchSuggestions mapboxToken s searchQuery
        (FetchResult.ok { features := some features })).calls
      = [{ query := searchQuery, limit := 5 }] := by
  have hguard : ¬ (mapboxToken = "" ∨ strTrim searchQuery = "") := by
    rintro (h | h)
    · exact htok h
    · exact hq h
  constructor <;> simp [searchSuggestions, hguard]

/-- Witness for C9 amended at the six-feature response. -/
theorem C9_witness :
    (searchSuggestions "tok" freshSearchState "Springfield"
        (FetchResult.ok { features := some sixSuggestions })).state.suggestions
      = sixSuggestions :=
  (C9_stores_features_verbatim "tok" freshSearchState "Springfield"
    sixSuggestions (by decide) (by decide)).1

/-- C10: a query of length two or fewer never reaches the autocomplete
lookup when the debounce window elapses; instead the suggestion list is
cleared and the dropdown hidden, while the typed query text is kept. -/
theorem C10_short_query_no_lookup (s : SearchInputState)
    (h : s.query.length ≤ 2) :
    (debounceTimeout s).lookupIssued = false ∧
    (debounceTimeout s).state.suggestions = [] ∧
    (debounceTimeout s).state.showSuggestions = false ∧
    (debounceTimeout s).state.query = s.query := by
  have hgt : ¬ 2 < s.query.length := by omega
  refine ⟨?_, ?_, ?_, ?_⟩ <;> simp [debounceTimeout, hgt]

/-- A concrete SearchInput state holding a two-letter query. -/
def twoLetterQueryState : SearchInputState :=
  { query := "NY", suggestions := [librarySpringfield],
    showSuggestions := true, selectedIndex := 0 }

/-- Witness for C10 at a concrete two-letter, non-whitespace query. -/
theorem C10_witness :
    (debounceTimeout twoLetterQueryState).lookupIssued = false ∧
    (debounceTimeout twoLetterQueryState).state.suggestions = [] :=
  have h := C10_short_query_no_lookup twoLetterQueryState (by decide)
  ⟨h.1, h.2.1⟩

/-- A waypoint of the OptimizationPanel: session-unique id, display
name, and resolved coordinate. -/
structure Waypoint where
  id : String
  name : String
  coordinates : Coord
deriving DecidableEq

/-- The useState record of the OptimizationPanel component. -/
structure OptimizationState where
  waypoints : List Waypoint
  isOptimizing : Bool
  newWaypoint : String
deriving DecidableEq

/-- One entry of the trip waypoints array of the optimization response;
waypoint_index maps the visiting order back to an input index. -/
structure TripWaypoint where
  waypoint_index : Int
deriving DecidableEq

/-- One trip of the optimization response. -/
structure Trip where
  geometry : Geometry
  duration : Int
  waypoints : List TripWaypoint
deriving DecidableEq

/-- An optimization response body; data.trips may be absent. -/
structure OptimizationResponse where
  trips : Option (List Trip)
deriving DecidableEq

/-- The request optimizeRoute issues: the coordinate chain of the user
location followed by the waypoints in list order. -/
inductive OptCall where
  | optimization (coords : List Coord)
deriving DecidableEq

/-- Result of one optimizeRoute run: the final panel state, the requests
issued, the toasts emitted, and the onOptimizedRoute invocation (the
optimized geometry and ordered name list), if any. -/
structure OptResult where
  state : OptimizationState
  calls : List OptCall
  notices : List Notice
  optimizedRoute : Option (Geometry × List String)
deriving DecidableEq

/-- The name mapping of the optimization success branch: position 0 is
the user location; any other position looks up the waypoint at
waypoint_index - 1 and falls back to a generic stop label when the index
misses or the name is the empty string (the JS or-else). -/
def optimizedWaypointNames (waypoints : List Waypoint)
    (order : List TripWaypoint) : List String :=
  order.enum.map fun p =>
    if p.1 = 0 then "Your Location"
    else
      match (if (1 : Int) ≤ p.2.waypoint_index then
              waypoints.get? (p.2.waypoint_index - 1).toNat
            else none) with
      | some wp => if wp.name = "" then "Stop " ++ toString p.1 else wp.name
      | none => "Stop " ++ toString p.1

/-- The optimizeRoute handler. Guard: a missing user location or fewer
than two waypoints emits the validation toast and performs no request
(the source combines both conditions into a single guard with one
toast). Otherwise it requests the optimized trip over the coordinate
chain; the first trip of a successful response is mapped back to names
and handed to the caller with the success toast, an empty or absent
trips array does nothing, and a fetch or parse failure emits the
optimization-failure toast. No path mutates the waypoint list. -/
def optimizeRoute (userLocation : Option Coord) (s : OptimizationState)
    (resp : FetchResult OptimizationResponse) : OptResult :=
  match userLocation with
  | none =>
      { state := s, calls := [], notices := [Notice.needMoreWaypoints],
        optimizedRoute := none }
  | some loc =>
      if s.waypoints.length < 2 then
        { state := s, calls := [], notices := [Notice.needMoreWaypoints],
          optimizedRoute := none }
      else
        let s1 := { s with isOptimizing := true }
        let allCoordinates := loc :: s.waypoints.map Waypoint.coordinates
        let calls := [OptCall.optimization allCoordinates]
        match resp with
        | FetchResult.err =>
            { state := { s1 with isOptimizing := false }
              calls := calls
              notices := [Notice.optimizationFailed]
              optimizedRoute := none }
        | FetchResult.ok data =>
            match data.trips with
            | none =>
                { state := { s1 with isOptimizing := false }
                  calls := calls
                  notices := []
                  optimizedRoute := none }
            | some [] =>
                { state := { s1 with isOptimizing := false }
                  calls := calls
                  notices := []
                  optimizedRoute := none }
            | some (trip :: _) =>
                { state := { s1 with isOptimizing := false }
                  calls := calls
                  notices := [Notice.routeOptimized]
                  optimizedRoute := some (trip.geometry,
                    optimizedWaypointNames s.waypoints trip.waypoints) }

/-- C6: running the optimization with fewer than two waypoints, or with
no origin coordinate, issues zero network calls, reports the validation
toast, and leaves the waypoint list (indeed the whole panel state)
unchanged. -/
theorem C6_optimize_validation (userLocation : Option Coord)
    (s : OptimizationState) (resp : FetchResult OptimizationResponse)
    (h : userLocation = none ∨ s.waypoints.length < 2) :
    (optimizeRoute userLocation s resp).calls = [] ∧
    (optimizeRoute userLocation s resp).notices = [Notice.needMoreWaypoints] ∧
    (optimizeRoute userLocation s resp).state.waypoints = s.waypoints ∧
    (optimizeRoute userLocation s resp).state = s := by
  rcases userLocation with _ | loc
  · exact ⟨rfl, rfl, rfl, rfl⟩
  · rcases h with h | h
    · cases h
    · refine ⟨?_, ?_, ?_, ?_⟩ <;> simp [optimizeRoute, h]

/-- A concrete waypoint for the Springfield library. -/
def libraryWaypoint : Waypoint :=
  { id := "1", name := "Library, Springfield", coordinates := (10, 20) }

/-- A concrete panel state holding a single waypoint. -/
def oneWaypointState : OptimizationState :=
  { waypoints := [libraryWaypoint]
    isOptimizing := false
    newWaypoint := "" }

/-- Witness for C6 at a concrete single-waypoint panel state. -/
theorem C6_witness :
    (optimizeRoute (some (0, 0)) oneWaypointState FetchResult.err).calls = [] ∧
    (optimizeRoute (some (0, 0)) oneWaypointState FetchResult.err).notices
      = [Notice.needMoreWaypoints] ∧
    (optimizeRoute (some (0, 0)) oneWaypointState FetchResult.err).state.waypoints
      = oneWaypointState.waypoints :=
  have h := C6_optimize_validation (some (0, 0)) oneWaypointState
    FetchResult.err (Or.inr (by decide))
  ⟨h.1, h.2.1, h.2.2.1⟩

end TrafficWhisper
